import Mathlib

/-!
Shallow embedding of `cmd/rabbitmq.go` (package `cmd` of rabbitio): the
`Message` entity, the message builder `NewMessageFromAttrs`, the session
constructor `NewRabbitMQ`, and the two loops `Publish` and `Consume`.

Broker interactions (dial, channel open, passive declares, bind, publish,
consume subscription, ack) are modelled as actions recorded in a trace,
with an abstract broker environment supplying the outcome of each fallible
primitive.  `log.Fatalf` terminates the Go process; it is modelled by a
`fatalLog` trace entry together with an absent (`none`) result.  Go byte
slices are `List Nat`, Go string maps are association lists whose key
uniqueness, where a claim needs it, is an explicit hypothesis.
-/

namespace Rabbitio

/-- `Message` from rabbitmq.go: payload bytes, routing key, headers.
Header values in Go are `interface\x7b\x7d` holding the attribute strings,
so they are modelled as strings. -/
structure Message where
  Body : List Nat
  RoutingKey : String
  Headers : List (String × String)
deriving DecidableEq, Repr

/-- The key-and-headers accumulation loop of `NewMessageFromAttrs`:
iterate the attribute list, the `"amqp.routingKey"` entry updates the
`key` variable (override wins when non-empty, else the attribute value),
every other entry is copied into the headers. -/
def buildHeaders (routingKey : String) : List (String × String) → String → List (String × String) × String
  | [], key => ([], key)
  | (k, v) :: rest, key =>
    if k = "amqp.routingKey" then
      buildHeaders routingKey rest (if routingKey ≠ "" then routingKey else v)
    else
      let r := buildHeaders routingKey rest key
      ((k, v) :: r.1, r.2)

/-- `NewMessageFromAttrs` from rabbitmq.go.  The Go function reads the
package-level variable `routingKey` (the configured routing-key override,
defined in a CLI file outside the provided sources); it is passed here as
the explicit first parameter, values as the Go variable would hold them.
The `key` variable starts at the Go zero value `""`. -/
def NewMessageFromAttrs (routingKey : String) (bytes : List Nat)
    (attrs : List (String × String)) : Message :=
  let r := buildHeaders routingKey attrs ""
  { Body := bytes, RoutingKey := r.2, Headers := r.1 }

lemma buildHeaders_fst (routingKey : String) (attrs : List (String × String)) (key : String) :
    (buildHeaders routingKey attrs key).1 =
      attrs.filter (fun kv => kv.1 ≠ "amqp.routingKey") := by
  induction attrs generalizing key with
  | nil => rfl
  | cons kv rest ih =>
    by_cases h : kv.1 = "amqp.routingKey"
    · obtain ⟨k, v⟩ := kv
      simp only [buildHeaders, List.filter_cons]
      simp_all
    · obtain ⟨k, v⟩ := kv
      simp only [buildHeaders, List.filter_cons]
      simp_all

lemma buildHeaders_snd_of_not_mem (routingKey : String) (attrs : List (String × String))
    (key : String) (h : "amqp.routingKey" ∉ attrs.map Prod.fst) :
    (buildHeaders routingKey attrs key).2 = key := by
  induction attrs generalizing key with
  | nil => rfl
  | cons kv rest ih =>
    obtain ⟨k, v⟩ := kv
    simp only [List.map_cons, List.mem_cons] at h
    push_neg at h
    have hk : k ≠ "amqp.routingKey" := fun hkk => h.1 hkk.symm
    simp only [buildHeaders, if_neg hk]
    exact ih key h.2

lemma buildHeaders_snd_override (routingKey : String) (hrk : routingKey ≠ "")
    (attrs : List (String × String)) (key : String)
    (h : "amqp.routingKey" ∈ attrs.map Prod.fst) :
    (buildHeaders routingKey attrs key).2 = routingKey := by
  induction attrs generalizing key with
  | nil => simp at h
  | cons kv rest ih =>
    obtain ⟨k, v⟩ := kv
    simp only [List.map_cons, List.mem_cons] at h
    by_cases hk : k = "amqp.routingKey"
    · subst hk
      simp only [buildHeaders, if_pos rfl, if_pos hrk]
      by_cases hm : "amqp.routingKey" ∈ rest.map Prod.fst
      · exact ih _ hm
      · exact buildHeaders_snd_of_not_mem _ _ _ hm
    · simp only [buildHeaders, if_neg hk]
      rcases h with h | h
      · exact absurd h.symm hk
      · exact ih key h

lemma buildHeaders_snd_designation (attrs : List (String × String)) (v key : String)
    (hmem : ("amqp.routingKey", v) ∈ attrs)
    (hnodup : (attrs.map Prod.fst).Nodup) :
    (buildHeaders "" attrs key).2 = v := by
  induction attrs generalizing key with
  | nil => simp at hmem
  | cons kv rest ih =>
    obtain ⟨k, w⟩ := kv
    simp only [List.map_cons, List.nodup_cons] at hnodup
    rcases List.mem_cons.mp hmem with h | h
    · injection h with hk hv
      subst hk
      subst hv
      simp only [buildHeaders, ne_eq, reduceIte]
      exact buildHeaders_snd_of_not_mem _ _ _ hnodup.1
    · have hk : k ≠ "amqp.routingKey" := by
        intro hk
        subst hk
        exact hnodup.1 (List.mem_map.mpr ⟨_, h, rfl⟩)
      simp only [buildHeaders, if_neg hk]
      exact ih key h hnodup.2

/-- The `RabbitMQ` struct from rabbitmq.go, without the opaque `conn` and
`channel` handles (the broker boundary is abstract).  The Go struct literal
in `NewRabbitMQ` sets only `exchange`, `contentType` and `contentEncoding`;
the remaining fields stay at their Go zero values. -/
structure RabbitMQ where
  exchange : String
  contentType : String
  contentEncoding : String
  queue : String
  tag : String
  routingKey : String
  prefetch : Nat
  consume : Bool
  publish : Bool
deriving DecidableEq, Repr

/-- One broker-facing step taken by `NewRabbitMQ`, in program order.
`fatalLog` records a `log.Fatalf` call, which terminates the process. -/
inductive SetupAction where
  | dial (uri : String)
  | openChannel
  | exchangeDeclarePassive (name typ : String) (durable autoDelete internal noWait : Bool)
  | queueDeclarePassive (name : String) (durable autoDelete exclusive noWait : Bool)
  | queueBind (queueName bindingKey sourceExchange : String) (noWait : Bool)
  | logMsg (msg : String)
  | fatalLog (msg : String)
deriving DecidableEq, Repr

/-- Abstract broker environment for setup: the outcome of each fallible
primitive (`some e` is the error the Go call returns) and the pending
message count the passive queue declaration reports. -/
structure BrokerEnv where
  dialErr : Option String
  channelErr : Option String
  exchangeDeclareErr : Option String
  queueDeclareErr : Option String
  queueMessages : Nat
  queueBindErr : Option String
deriving DecidableEq, Repr

/-- `NewRabbitMQ` from rabbitmq.go: dial, open a channel, passively declare
the exchange when `publish`, passively declare the queue, require a
non-zero backlog and bind it when `consume`; any error is `log.Fatalf`
(process exit, modelled as a `none` session after a `fatalLog` action).
A passive declaration of a named queue reports that same queue name back,
so `q.Name` is `queue` in the bind and the log messages. -/
def NewRabbitMQ (env : BrokerEnv) (amqpURI exchange queue routingKey tag : String)
    (prefetch : Nat) (consume publish : Bool) :
    List SetupAction × Option RabbitMQ :=
  match env.dialErr with
  | some e => ([.dial amqpURI, .fatalLog ("writer failed to connect to Rabbit: " ++ e)], none)
  | none =>
  match env.channelErr with
  | some e => ([.dial amqpURI, .openChannel,
      .fatalLog ("writer failed to get a channel from Rabbit: " ++ e)], none)
  | none =>
  let t1 : List SetupAction := [.dial amqpURI, .openChannel]
  let t2 : List SetupAction :=
    if publish then t1 ++ [.exchangeDeclarePassive exchange "topic" true false false false]
    else t1
  if publish ∧ env.exchangeDeclareErr.isSome then
    (t2 ++ [.fatalLog ("Exchange Declare: " ++ env.exchangeDeclareErr.getD "")], none)
  else
  if consume then
    let t3 := t2 ++ [SetupAction.queueDeclarePassive queue true false false false]
    match env.queueDeclareErr with
    | some e => (t3 ++ [.fatalLog ("Queue Declare: " ++ e)], none)
    | none =>
      if env.queueMessages = 0 then
        (t3 ++ [.fatalLog ("No messages in RabbitMQ Queue: " ++ queue)], none)
      else
        let t4 := t3 ++ [SetupAction.queueBind queue "#" exchange false]
        match env.queueBindErr with
        | some e => (t4 ++ [.fatalLog ("Queue Bind: " ++ e)], none)
        | none =>
          let t5 := t4 ++
            [SetupAction.logMsg ("Bind to Exchange: " ++ exchange ++ " and Queue: " ++ queue ++
              ", Messaging waiting: " ++ toString env.queueMessages),
             SetupAction.logMsg ("RabbitMQ connected: " ++ amqpURI)]
          (t5, some { exchange := exchange, contentType := "application/json",
                      contentEncoding := "UTF-8", queue := "", tag := "", routingKey := "",
                      prefetch := 0, consume := false, publish := false })
  else
    (t2 ++ [SetupAction.logMsg ("RabbitMQ connected: " ++ amqpURI)],
     some { exchange := exchange, contentType := "application/json",
            contentEncoding := "UTF-8", queue := "", tag := "", routingKey := "",
            prefetch := 0, consume := false, publish := false })

/-- One inbound broker delivery on the consume side. -/
structure Delivery where
  Body : List Nat
  RoutingKey : String
  Headers : List (String × String)
  DeliveryTag : Nat
deriving DecidableEq, Repr

/-- The `Message` that `Consume` builds from a delivery: body, routing key
and headers passed through unchanged. -/
def deliveryToMessage (d : Delivery) : Message :=
  { Body := d.Body, RoutingKey := d.RoutingKey, Headers := d.Headers }

/-- The arguments `Consume` passes to `channel.Consume` when it opens the
delivery subscription. -/
structure ConsumeArgs where
  queue : String
  tag : String
  noAck : Bool
  exclusive : Bool
  noLocal : Bool
  noWait : Bool
deriving DecidableEq, Repr

/-- Observable events of the `Consume` loop, in program order. -/
inductive ConsumeEvent where
  | emit (m : Message)
  | ack (deliveryTag : Nat) (multiple : Bool)
  | logMsg (msg : String)
  | fatalLog (msg : String)
  | closeOut
deriving DecidableEq, Repr

/-- The body of the `Consume` range loop for one delivery: build the
`Message`, write it to the output channel, then call `channel.Ack` with
`multiple = false`; the error value `Ack` returns is discarded by the
source, so the loop ignores `ackErr`. -/
def consumeStep (ackErr : Nat → Option String) (d : Delivery) : List ConsumeEvent :=
  let _ackResult := ackErr d.DeliveryTag
  [.emit (deliveryToMessage d), .ack d.DeliveryTag false]

/-- `Consume` from rabbitmq.go.  `subscribeErr` is the error that the
`channel.Consume` registration returns (`none` on success); `ackErr` gives
the error value each `channel.Ack` call returns; `ds` is the finite
sequence of deliveries the broker yields before it closes the delivery
channel.  The result pairs the subscription arguments with the event
trace; a failed registration is `log.Fatalf` (process exit). -/
def Consume (r : RabbitMQ) (subscribeErr : Option String) (ackErr : Nat → Option String)
    (ds : List Delivery) : ConsumeArgs × List ConsumeEvent :=
  ({ queue := r.queue, tag := r.tag, noAck := false, exclusive := false,
     noLocal := false, noWait := false },
   match subscribeErr with
   | some e => [.fatalLog ("rabbit consumer failed " ++ e)]
   | none =>
     ds.flatMap (consumeStep ackErr) ++ [.logMsg "All messages consumed", .closeOut])

/-- The `amqp.Publishing` record that `Publish` hands to `channel.Publish`.
`DeliveryMode` is the AMQP delivery-mode octet; `amqp.Persistent` is 2. -/
structure Publishing where
  Headers : List (String × String)
  ContentType : String
  ContentEncoding : String
  Body : List Nat
  DeliveryMode : Nat
deriving DecidableEq, Repr

/-- One `channel.Publish` invocation: positional arguments of the call. -/
structure PublishCall where
  exchange : String
  key : String
  mandatory : Bool
  immediate : Bool
  msg : Publishing
deriving DecidableEq, Repr

/-- Observable events of the `Publish` loop. -/
inductive PublishEvent where
  | call (c : PublishCall)
  | fatalLog (msg : String)
deriving DecidableEq, Repr

/-- The `channel.Publish` call `Publish` makes for the Message `doc`:
the session's exchange, the Message's own routing key, non-mandatory,
non-immediate, the Message's headers, the session's fixed content type and
encoding, and persistent delivery mode. -/
def publishCallFor (r : RabbitMQ) (doc : Message) : PublishCall :=
  { exchange := r.exchange, key := doc.RoutingKey, mandatory := false, immediate := false,
    msg := { Headers := doc.Headers, ContentType := r.contentType,
             ContentEncoding := r.contentEncoding, Body := doc.Body, DeliveryMode := 2 } }

/-- The `Publish` range loop from position `i`: one `channel.Publish` call
per Message in input order; a publish error is `log.Fatalf` (process exit,
so the loop stops there).  `pubErr i` is the error the i-th call returns. -/
def publishLoop (r : RabbitMQ) (pubErr : Nat → Option String) :
    Nat → List Message → List PublishEvent
  | _, [] => []
  | i, doc :: rest =>
    match pubErr i with
    | some e => [.call (publishCallFor r doc),
        .fatalLog ("writer failed to write document to rabbit: " ++ e)]
    | none => .call (publishCallFor r doc) :: publishLoop r pubErr (i + 1) rest

/-- `Publish` from rabbitmq.go: drain the input channel `msgs`, publishing
each Message until the channel is exhausted or a publish call errors. -/
def Publish (r : RabbitMQ) (pubErr : Nat → Option String) (msgs : List Message) :
    List PublishEvent :=
  publishLoop r pubErr 0 msgs

/-- Projection of an emitted Message out of a consume event. -/
def emitOf : ConsumeEvent → Option Message
  | .emit m => some m
  | _ => none

/-- Projection of an acknowledgement (delivery tag, multiple flag) out of a
consume event. -/
def ackOf : ConsumeEvent → Option (Nat × Bool)
  | .ack t mult => some (t, mult)
  | _ => none

lemma consumeStep_eq (ackErr : Nat → Option String) (d : Delivery) :
    consumeStep ackErr d = [.emit (deliveryToMessage d), .ack d.DeliveryTag false] := rfl

lemma consumeLoop_length (ackErr : Nat → Option String) (ds : List Delivery) :
    (ds.flatMap (consumeStep ackErr)).length = 2 * ds.length := by
  induction ds with
  | nil => rfl
  | cons d rest ih =>
    rw [List.flatMap_cons, List.length_append, ih, consumeStep_eq]
    simp only [List.length_cons, List.length_nil, List.length_cons]
    omega

lemma consumeLoop_getElem (ackErr : Nat → Option String) (ds : List Delivery) :
    ∀ (i : Nat) (d : Delivery), ds[i]? = some d →
      (ds.flatMap (consumeStep ackErr))[2 * i]? = some (.emit (deliveryToMessage d)) ∧
      (ds.flatMap (consumeStep ackErr))[2 * i + 1]? = some (.ack d.DeliveryTag false) := by
  induction ds with
  | nil => intro i d h; simp at h
  | cons e rest ih =>
    intro i d h
    cases i with
    | zero =>
      simp only [List.getElem?_cons_zero, Option.some.injEq] at h
      subst h
      rw [List.flatMap_cons, consumeStep_eq]
      constructor
      · simp
      · simp
    | succ i =>
      have h' : rest[i]? = some d := by simpa using h
      have ihd := ih i d h'
      rw [List.flatMap_cons, consumeStep_eq]
      have hlen : ([ConsumeEvent.emit (deliveryToMessage e),
          ConsumeEvent.ack e.DeliveryTag false]).length = 2 := rfl
      constructor
      · rw [List.getElem?_append_right (by rw [hlen]; omega)]
        rw [hlen, show 2 * (i + 1) - 2 = 2 * i from by omega]
        exact ihd.1
      · rw [List.getElem?_append_right (by rw [hlen]; omega)]
        rw [hlen, show 2 * (i + 1) + 1 - 2 = 2 * i + 1 from by omega]
        exact ihd.2

lemma consumeLoop_filterMap_emit (ackErr : Nat → Option String) (ds : List Delivery) :
    (ds.flatMap (consumeStep ackErr)).filterMap emitOf = ds.map deliveryToMessage := by
  induction ds with
  | nil => rfl
  | cons d rest ih =>
    rw [List.flatMap_cons, consumeStep_eq, List.filterMap_append, ih, List.map_cons]
    rfl

lemma consumeLoop_filterMap_ack (ackErr : Nat → Option String) (ds : List Delivery) :
    (ds.flatMap (consumeStep ackErr)).filterMap ackOf =
      ds.map (fun d => (d.DeliveryTag, false)) := by
  induction ds with
  | nil => rfl
  | cons d rest ih =>
    rw [List.flatMap_cons, consumeStep_eq, List.filterMap_append, ih, List.map_cons]
    rfl

lemma consumeLoop_count_close (ackErr : Nat → Option String) (ds : List Delivery) :
    (ds.flatMap (consumeStep ackErr)).count ConsumeEvent.closeOut = 0 := by
  induction ds with
  | nil => rfl
  | cons d rest ih =>
    rw [List.flatMap_cons, consumeStep_eq, List.count_append, ih]
    simp [List.count_cons]

lemma consumeLoop_mem (ackErr : Nat → Option String) (ds : List Delivery)
    (e : ConsumeEvent) (he : e ∈ ds.flatMap (consumeStep ackErr)) :
    (∃ d ∈ ds, e = .emit (deliveryToMessage d)) ∨
      (∃ d ∈ ds, e = .ack d.DeliveryTag false) := by
  rw [List.mem_flatMap] at he
  obtain ⟨d, hd, he⟩ := he
  rw [consumeStep_eq] at he
  rcases List.mem_cons.mp he with h | h
  · exact Or.inl ⟨d, hd, h⟩
  · rcases List.mem_cons.mp h with h | h
    · exact Or.inr ⟨d, hd, h⟩
    · simp at h

/-- Claim C6: every attribute whose key is not the routing-key designation
`"amqp.routingKey"` appears in the resulting Message's `Headers` under its
original key with its original value, and `Headers` contains no other
entries. -/
theorem newMessageFromAttrs_headers_exactly_non_designated
    (routingKey : String) (bytes : List Nat) (attrs : List (String × String))
    (k v : String) :
    (k, v) ∈ (NewMessageFromAttrs routingKey bytes attrs).Headers ↔
      ((k, v) ∈ attrs ∧ k ≠ "amqp.routingKey") := by
  simp only [NewMessageFromAttrs, buildHeaders_fst, List.mem_filter, ne_eq,
    decide_not, Bool.not_eq_eq_eq_not, Bool.not_true, decide_eq_false_iff_not]

/-- Claim C5: when the routing-key override is empty and the attribute
mapping (with unique keys, as a Go map has) contains the designation
`"amqp.routingKey"` with value `v`, the built Message has `RoutingKey = v`
and the designation key is absent from `Headers`. -/
theorem newMessageFromAttrs_designation_no_override
    (bytes : List Nat) (attrs : List (String × String)) (v : String)
    (hmem : ("amqp.routingKey", v) ∈ attrs)
    (hnodup : (attrs.map Prod.fst).Nodup) :
    (NewMessageFromAttrs "" bytes attrs).RoutingKey = v ∧
      "amqp.routingKey" ∉ (NewMessageFromAttrs "" bytes attrs).Headers.map Prod.fst := by
  constructor
  · exact buildHeaders_snd_designation attrs v "" hmem hnodup
  · simp only [NewMessageFromAttrs, buildHeaders_fst, List.mem_map, not_exists, not_and]
    rintro ⟨k, w⟩ hk
    simp only [List.mem_filter, ne_eq, decide_not, Bool.not_eq_eq_eq_not, Bool.not_true,
      decide_eq_false_iff_not] at hk
    exact fun he => hk.2 he

/-- Witness for C5 at a concrete mapping. -/
theorem newMessageFromAttrs_designation_no_override_witness :
    (NewMessageFromAttrs "" [1, 2] [("source", "api"), ("amqp.routingKey", "orders.created")]).RoutingKey
        = "orders.created" ∧
      "amqp.routingKey" ∉
        (NewMessageFromAttrs "" [1, 2] [("source", "api"), ("amqp.routingKey", "orders.created")]).Headers.map
          Prod.fst :=
  newMessageFromAttrs_designation_no_override [1, 2]
    [("source", "api"), ("amqp.routingKey", "orders.created")] "orders.created"
    (by decide) (by decide)

/-- Claim C7: when the attribute mapping does not contain the designation
`"amqp.routingKey"` and no override is configured, the built Message's
`RoutingKey` is the empty string (the Go zero value of the `key`
variable). -/
theorem newMessageFromAttrs_no_designation_empty_key
    (bytes : List Nat) (attrs : List (String × String))
    (h : "amqp.routingKey" ∉ attrs.map Prod.fst) :
    (NewMessageFromAttrs "" bytes attrs).RoutingKey = "" :=
  buildHeaders_snd_of_not_mem "" attrs "" h

/-- Witness for C7 at a concrete mapping. -/
theorem newMessageFromAttrs_no_designation_empty_key_witness :
    (NewMessageFromAttrs "" [7] [("source", "api"), ("kind", "event")]).RoutingKey = "" :=
  newMessageFromAttrs_no_designation_empty_key [7] [("source", "api"), ("kind", "event")]
    (by decide)

/-- Counterexample to claim C2 as stated: with the non-empty override
`"orders"` configured and a mapping that lacks the designation attribute
(the empty mapping), the built Message's `RoutingKey` is `""`, not the
override — the override is applied only inside the designation branch of
the switch. -/
theorem newMessageFromAttrs_override_counterexample :
    (NewMessageFromAttrs "orders" [] []).RoutingKey ≠ "orders" := by
  decide

/-- Claim C2 (amended): whenever a non-empty routing-key override is
configured and the designation attribute `"amqp.routingKey"` is present in
the mapping, the built Message's `RoutingKey` equals the override,
regardless of the designation's value; when the designation is absent the
override is ignored. -/
theorem newMessageFromAttrs_override_wins
    (routingKey : String) (bytes : List Nat) (attrs : List (String × String))
    (hrk : routingKey ≠ "")
    (hmem : "amqp.routingKey" ∈ attrs.map Prod.fst) :
    (NewMessageFromAttrs routingKey bytes attrs).RoutingKey = routingKey :=
  buildHeaders_snd_override routingKey hrk attrs "" hmem

/-- Witness for the amended C2 at a concrete mapping. -/
theorem newMessageFromAttrs_override_wins_witness :
    (NewMessageFromAttrs "orders" [] [("amqp.routingKey", "other"), ("a", "b")]).RoutingKey
      = "orders" :=
  newMessageFromAttrs_override_wins "orders" [] [("amqp.routingKey", "other"), ("a", "b")]
    (by decide) (by decide)

/-- A concrete session record, as `NewRabbitMQ` returns it, for witnesses. -/
def sampleSession : RabbitMQ :=
  { exchange := "rabbitio-output", contentType := "application/json",
    contentEncoding := "UTF-8", queue := "", tag := "", routingKey := "",
    prefetch := 0, consume := false, publish := false }

/-- A concrete broker delivery for witnesses. -/
def sampleDelivery : Delivery :=
  { Body := [], RoutingKey := "orders.created", Headers := [("source", "api")],
    DeliveryTag := 1 }

/-- Claim C3: for a finite sequence of N broker deliveries, the Consume
loop emits exactly one Message per delivery in delivery order (the event
at position 2i is the emission of delivery i), acknowledges each delivery
individually (multiple = false) exactly once, immediately after that
delivery's emission (position 2i + 1), and the trace holds exactly these
2N events before the final log and channel close. -/
theorem consume_emits_in_order_and_acks_each_once (r : RabbitMQ)
    (ackErr : Nat → Option String) (ds : List Delivery) :
    (Consume r none ackErr ds).2.length = 2 * ds.length + 2 ∧
    (∀ i d, ds[i]? = some d →
      (Consume r none ackErr ds).2[2 * i]? = some (.emit (deliveryToMessage d)) ∧
      (Consume r none ackErr ds).2[2 * i + 1]? = some (.ack d.DeliveryTag false)) ∧
    (Consume r none ackErr ds).2[2 * ds.length]? = some (.logMsg "All messages consumed") ∧
    (Consume r none ackErr ds).2[2 * ds.length + 1]? = some ConsumeEvent.closeOut := by
  have htr : (Consume r none ackErr ds).2 =
      ds.flatMap (consumeStep ackErr) ++ [.logMsg "All messages consumed", .closeOut] := rfl
  rw [htr]
  refine ⟨?_, ?_, ?_, ?_⟩
  · rw [List.length_append, consumeLoop_length]
    rfl
  · intro i d h
    have hi : i < ds.length := by
      by_contra hge
      rw [List.getElem?_eq_none (by omega)] at h
      exact Option.noConfusion h
    constructor
    · rw [List.getElem?_append_left (by rw [consumeLoop_length]; omega)]
      exact (consumeLoop_getElem ackErr ds i d h).1
    · rw [List.getElem?_append_left (by rw [consumeLoop_length]; omega)]
      exact (consumeLoop_getElem ackErr ds i d h).2
  · rw [List.getElem?_append_right (by rw [consumeLoop_length])]
    rw [consumeLoop_length, Nat.sub_self]
    simp
  · rw [List.getElem?_append_right (by rw [consumeLoop_length]; omega)]
    rw [consumeLoop_length, show 2 * ds.length + 1 - 2 * ds.length = 1 from by omega]
    simp

/-- Witness for C3: the trace for one concrete delivery emits its Message
at position 0 and acknowledges exactly that delivery, non-cumulatively, at
position 1. -/
theorem consume_emits_in_order_and_acks_each_once_witness :
    (Consume sampleSession none (fun _ => none) [sampleDelivery]).2[2 * 0]? =
      some (.emit (deliveryToMessage sampleDelivery)) ∧
    (Consume sampleSession none (fun _ => none) [sampleDelivery]).2[2 * 0 + 1]? =
      some (.ack sampleDelivery.DeliveryTag false) :=
  (consume_emits_in_order_and_acks_each_once sampleSession (fun _ => none)
    [sampleDelivery]).2.1 0 sampleDelivery rfl

/-- Claim C9: over any finite delivery sequence (the subscription being
eventually closed by the broker), the Consume loop terminates — it is a
total function of the delivery list — and the caller-owned output channel
is closed exactly once, as the last event, after every translated Message
has been emitted. -/
theorem consume_closes_output_once_after_emits (r : RabbitMQ)
    (ackErr : Nat → Option String) (ds : List Delivery) :
    (Consume r none ackErr ds).2.getLast? = some ConsumeEvent.closeOut ∧
    (Consume r none ackErr ds).2.count ConsumeEvent.closeOut = 1 ∧
    (Consume r none ackErr ds).2.filterMap emitOf = ds.map deliveryToMessage := by
  have htr : (Consume r none ackErr ds).2 =
      ds.flatMap (consumeStep ackErr) ++ [.logMsg "All messages consumed", .closeOut] := rfl
  rw [htr]
  refine ⟨?_, ?_, ?_⟩
  · rw [show (ds.flatMap (consumeStep ackErr) ++
        [ConsumeEvent.logMsg "All messages consumed", ConsumeEvent.closeOut]) =
        ((ds.flatMap (consumeStep ackErr) ++ [ConsumeEvent.logMsg "All messages consumed"]) ++
          [ConsumeEvent.closeOut]) from by simp,
      List.getLast?_concat]
  · rw [List.count_append, consumeLoop_count_close]
    decide
  · rw [List.filterMap_append, consumeLoop_filterMap_emit]
    simp [emitOf]

/-- Claim C10: the error value returned by each per-delivery `Ack` call is
discarded — the whole observable behavior of Consume is independent of the
acknowledgement outcomes, a failed acknowledgement produces no log and no
fatal exit, and every delivery (including those after a failed one) is
still emitted and acknowledged. -/
theorem consume_discards_ack_errors (r : RabbitMQ) (subscribeErr : Option String)
    (ackErr ackErr2 : Nat → Option String) (ds : List Delivery) :
    Consume r subscribeErr ackErr ds = Consume r subscribeErr ackErr2 ds ∧
    (∀ e ∈ (Consume r none ackErr ds).2, ∀ s, e ≠ .fatalLog s) ∧
    (∀ e ∈ (Consume r none ackErr ds).2, ∀ s, e = .logMsg s → s = "All messages consumed") ∧
    (Consume r none ackErr ds).2.filterMap ackOf =
      ds.map (fun d => (d.DeliveryTag, false)) := by
  have htr : (Consume r none ackErr ds).2 =
      ds.flatMap (consumeStep ackErr) ++ [.logMsg "All messages consumed", .closeOut] := rfl
  refine ⟨rfl, ?_, ?_, ?_⟩
  · intro e he s
    rw [htr] at he
    rcases List.mem_append.mp he with h | h
    · rcases consumeLoop_mem ackErr ds e h with ⟨d, _, hd⟩ | ⟨d, _, hd⟩ <;> subst hd <;>
        intro hc <;> exact ConsumeEvent.noConfusion hc
    · rcases List.mem_cons.mp h with h | h
      · subst h; intro hc; exact ConsumeEvent.noConfusion hc
      · rcases List.mem_cons.mp h with h | h
        · subst h; intro hc; exact ConsumeEvent.noConfusion hc
        · simp at h
  · intro e he s hs
    rw [htr] at he
    rcases List.mem_append.mp he with h | h
    · rcases consumeLoop_mem ackErr ds e h with ⟨d, _, hd⟩ | ⟨d, _, hd⟩ <;> subst hd <;>
        exact ConsumeEvent.noConfusion hs
    · rcases List.mem_cons.mp h with h | h
      · subst h; injection hs with hs; exact hs.symm
      · rcases List.mem_cons.mp h with h | h
        · subst h; exact ConsumeEvent.noConfusion hs
        · simp at h
  · rw [htr, List.filterMap_append, consumeLoop_filterMap_ack]
    simp [ackOf]

/-- Witness for C10: at a concrete run whose single acknowledgement fails,
the emitted event is not a fatal log. -/
theorem consume_discards_ack_errors_witness :
    ConsumeEvent.emit (deliveryToMessage sampleDelivery) ≠ .fatalLog "boom" :=
  (consume_discards_ack_errors sampleSession none (fun _ => some "ack failed")
    (fun _ => none) [sampleDelivery]).2.1
    (ConsumeEvent.emit (deliveryToMessage sampleDelivery)) (by decide) "boom"

/-- A broker environment in which every setup primitive succeeds and the
queue reports a non-zero backlog. -/
def allOkEnv : BrokerEnv :=
  { dialErr := none, channelErr := none, exchangeDeclareErr := none,
    queueDeclareErr := none, queueMessages := 7, queueBindErr := none }

/-- A broker environment in which every setup primitive succeeds but the
passively declared queue reports zero pending messages. -/
def zeroBacklogEnv : BrokerEnv :=
  { dialErr := none, channelErr := none, exchangeDeclareErr := none,
    queueDeclareErr := none, queueMessages := 0, queueBindErr := none }

/-- Claim C1 (code bug): for the session `NewRabbitMQ` returns when called
with queue `"jobs"` and consumer tag `"tag1"`, `Consume` does open its
delivery subscription with manual acknowledgement (noAck = false),
non-exclusive and no local-suppression, but against the empty queue name
and empty consumer tag rather than the configured ones: the struct literal
in `NewRabbitMQ` never stores the `queue` and `tag` parameters, so the
session fields keep their Go zero values. -/
theorem consume_subscription_loses_queue_and_tag :
    ((NewRabbitMQ allOkEnv "amqp://example" "logs" "jobs" "" "tag1" 1 true false).2.map
        (fun r => (Consume r none (fun _ => none) []).1)) =
      some { queue := "", tag := "", noAck := false, exclusive := false,
             noLocal := false, noWait := false } ∧
    ("" : String) ≠ "jobs" ∧ ("" : String) ≠ "tag1" := by
  refine ⟨rfl, by decide, by decide⟩

/-- Claim C8: with consume enabled, when dial, channel opening and (when
publishing) the exchange declaration succeed and the passively declared
queue reports zero pending messages, setup exits fatally: no session is
returned (so no Consume call is possible), the fatal log names the
drained queue, and no queue bind action is ever performed. -/
theorem newRabbitMQ_zero_backlog_fatal_before_bind (env : BrokerEnv)
    (amqpURI exchange queue routingKey tag : String) (prefetch : Nat) (publish : Bool)
    (hdial : env.dialErr = none) (hchan : env.channelErr = none)
    (hex : env.exchangeDeclareErr = none) (hq : env.queueDeclareErr = none)
    (hzero : env.queueMessages = 0) :
    (NewRabbitMQ env amqpURI exchange queue routingKey tag prefetch true publish).2 = none ∧
    SetupAction.fatalLog ("No messages in RabbitMQ Queue: " ++ queue) ∈
      (NewRabbitMQ env amqpURI exchange queue routingKey tag prefetch true publish).1 ∧
    ∀ a ∈ (NewRabbitMQ env amqpURI exchange queue routingKey tag prefetch true publish).1,
      ∀ qn bk se nw, a ≠ SetupAction.queueBind qn bk se nw := by
  cases publish with
  | false =>
    refine ⟨?_, ?_, ?_⟩
    · simp [NewRabbitMQ, hdial, hchan, hex, hq, hzero]
    · simp [NewRabbitMQ, hdial, hchan, hex, hq, hzero]
    · intro a ha qn bk se nw hcontra
      subst hcontra
      simp [NewRabbitMQ, hdial, hchan, hex, hq, hzero] at ha
  | true =>
    refine ⟨?_, ?_, ?_⟩
    · simp [NewRabbitMQ, hdial, hchan, hex, hq, hzero]
    · simp [NewRabbitMQ, hdial, hchan, hex, hq, hzero]
    · intro a ha qn bk se nw hcontra
      subst hcontra
      simp [NewRabbitMQ, hdial, hchan, hex, hq, hzero] at ha

/-- Witness for C8 at a concrete environment and arguments: setup with a
zero-backlog queue returns no session and logs the fatal message. -/
theorem newRabbitMQ_zero_backlog_fatal_before_bind_witness :
    (NewRabbitMQ zeroBacklogEnv "amqp://example" "logs" "jobs" "" "tag1" 1 true false).2
        = none ∧
      SetupAction.fatalLog ("No messages in RabbitMQ Queue: " ++ "jobs") ∈
        (NewRabbitMQ zeroBacklogEnv "amqp://example" "logs" "jobs" "" "tag1" 1 true false).1 :=
  have h := newRabbitMQ_zero_backlog_fatal_before_bind zeroBacklogEnv "amqp://example"
    "logs" "jobs" "" "tag1" 1 false rfl rfl rfl rfl rfl
  ⟨h.1, h.2.1⟩

lemma publishLoop_all_ok (r : RabbitMQ) (pubErr : Nat → Option String)
    (h : ∀ i, pubErr i = none) (msgs : List Message) :
    ∀ i, publishLoop r pubErr i msgs =
      msgs.map (fun doc => PublishEvent.call (publishCallFor r doc)) := by
  induction msgs with
  | nil => intro i; rfl
  | cons doc rest ih =>
    intro i
    simp only [publishLoop, h i, List.map_cons, ih (i + 1)]

/-- Claim C4: feeding a finite sequence of Messages to Publish, with the
broker accepting every call, makes exactly one publish call per Message in
input order, each to the session's exchange with that Message's own
routing key and headers (the session's configured routing-key field plays
no part), non-mandatory, non-immediate, carrying the session's fixed
content type and encoding and persistent delivery mode (AMQP
delivery-mode octet 2). -/
theorem publish_one_call_per_message (r : RabbitMQ) (pubErr : Nat → Option String)
    (msgs : List Message) (h : ∀ i, pubErr i = none) :
    Publish r pubErr msgs = msgs.map (fun doc => PublishEvent.call
      { exchange := r.exchange, key := doc.RoutingKey, mandatory := false,
        immediate := false,
        msg := { Headers := doc.Headers, ContentType := r.contentType,
                 ContentEncoding := r.contentEncoding, Body := doc.Body,
                 DeliveryMode := 2 } }) :=
  publishLoop_all_ok r pubErr h msgs 0

/-- Witness for C4 at a concrete session and two Messages. -/
theorem publish_one_call_per_message_witness :
    Publish sampleSession (fun _ => none)
        [{ Body := [1], RoutingKey := "a.b", Headers := [("h", "1")] },
         { Body := [], RoutingKey := "c.d", Headers := [] }] =
      [PublishEvent.call
        { exchange := "rabbitio-output", key := "a.b", mandatory := false, immediate := false,
          msg := { Headers := [("h", "1")], ContentType := "application/json",
                   ContentEncoding := "UTF-8", Body := [1], DeliveryMode := 2 } },
       PublishEvent.call
        { exchange := "rabbitio-output", key := "c.d", mandatory := false, immediate := false,
          msg := { Headers := [], ContentType := "application/json",
                   ContentEncoding := "UTF-8", Body := [], DeliveryMode := 2 } }] := by
  rw [publish_one_call_per_message sampleSession (fun _ => none) _ (fun _ => rfl)]
  rfl

end Rabbitio
